import Mathlib

/-!
Shallow embedding of `add_flickr_photos_to_album.py`, a client utility that
searches a user's Flickr photostream for photos taken with a given camera
model and gathers the matches into a photoset (album).

The remote Flickr service is modelled as pure oracle functions supplied to
each embedded function; every remote call the script would issue is recorded
in an explicit trace so that call-count and call-order properties can be
stated.  Python strings are Lean `String`s; Python `None` is `Option.none`;
a raised `FlickrError` is the `none` case of the oracle's `Option` result.
-/

set_option autoImplicit false

namespace Flickr

/-- Python `s.lower()` restricted to ASCII letters, applied characterwise
(the camera strings the script compares are ASCII). -/
def lower (s : String) : String :=
  ⟨s.toList.map Char.toLower⟩

/-- Python `s.replace(c, "")` for a single-character pattern `c`: every
occurrence of the character is removed. -/
def removeAll (c : Char) (s : String) : String :=
  ⟨s.toList.filter (fun x => x != c)⟩

/-- The normalization applied by `filter_photos_by_camera` to both the camera
model and the machine-tag string:
`s.lower().replace(' ', '').replace('-', '').replace('_', '')`. -/
def normalizeModel (s : String) : String :=
  removeAll '_' (removeAll '-' (removeAll ' ' (lower s)))

/-- `hasSubstr needle hay` decides whether `needle` occurs contiguously
inside `hay` (Python's `needle in hay` on strings, viewed as char lists). -/
def hasSubstr (needle : List Char) : List Char → Bool
  | [] => needle.isEmpty
  | c :: t => needle.isPrefixOf (c :: t) || hasSubstr needle t

/-- Python `needle in hay` for strings. -/
def strContainsSub (hay needle : String) : Bool :=
  hasSubstr needle.toList hay.toList

/-- The `raw` field of an EXIF tag entry as the script sees it: either a
plain string or a dict whose `_content` key may be present or absent. -/
inductive RawValue where
  | str : String → RawValue
  | dict : Option String → RawValue
  deriving DecidableEq, Repr

/-- One entry of the list returned under `exif['photo']['exif']`.  `label`
and `tag` default to `""` when the key is absent (`tag.get('label', '')`),
so they are modelled as plain strings; `raw` may be absent (`tag.get('raw')`
returning `None`). -/
structure ExifTag where
  label : String
  tag : String
  raw : Option RawValue
  deriving DecidableEq, Repr

/-- The value the script extracts from a matching tag entry:
`raw.get('_content')` when `raw` is a dict, otherwise `raw` itself
(`None` when the `raw` key was absent). -/
def extractRaw : Option RawValue → Option String
  | none => none
  | some (.str s) => some s
  | some (.dict c) => c

/-- The scan inside `get_camera_for_photo`: return, from the FIRST entry
whose `label` or `tag` lower-cases to `"model"`, the extracted raw value;
the loop `return`s at that entry whether or not a value is present. -/
def findModel : List ExifTag → Option String
  | [] => none
  | t :: rest =>
    if lower t.label == "model" || lower t.tag == "model" then
      extractRaw t.raw
    else
      findModel rest

/-- `get_camera_for_photo(flickr, photo_id)`.  The oracle `g` stands for
`flickr.photos.getExif`: `none` models a raised `FlickrError` (EXIF sharing
disabled), `some tags` models the list `exif.get('photo', {}).get('exif', [])`. -/
def get_camera_for_photo (g : String → Option (List ExifTag)) (photo_id : String) :
    Option String :=
  match g photo_id with
  | none => none
  | some tags => findModel tags

/-- A photo record as returned by `flickr.photos.search`: its `id` and its
optional `machine_tags` field (`none` models an absent or `None` field; the
script coalesces both to `""` via `photo.get('machine_tags', '') or ''`). -/
structure Photo where
  id : String
  machine_tags : Option String
  deriving DecidableEq, Repr

/-- `filter_photos_by_camera(flickr, photos, camera_model)`.  Returns the
list of matching photo ids together with the trace of photo ids passed to
`flickr.photos.getExif` (via `get_camera_for_photo`), in call order. -/
def filter_photos_by_camera (g : String → Option (List ExifTag)) :
    List Photo → String → List String × List String
  | [], _ => ([], [])
  | p :: rest, camera_model =>
    let r := filter_photos_by_camera g rest camera_model
    let machine_tags := p.machine_tags.getD ""
    if machine_tags != "" &&
        strContainsSub (normalizeModel machine_tags) (normalizeModel camera_model) then
      (p.id :: r.1, r.2)
    else
      match get_camera_for_photo g p.id with
      | some model =>
        if model != "" && lower model == lower camera_model then
          (p.id :: r.1, p.id :: r.2)
        else
          (r.1, p.id :: r.2)
      | none => (r.1, p.id :: r.2)

/-- One page of a `flickr.photos.search` response: the record list under
`response['photos']['photo']` and the total page count
`int(response['photos']['pages'])`. -/
structure SearchPage where
  photo : List Photo
  pages : Nat
  deriving Repr

/-- The pagination loop of `search_photos_by_user`: starting at `page`,
fetch a page, append its records, stop when `page >= pages` as reported by
that very response, else move to the next page.  The Python loop is
unbounded (`while True`); `fuel` bounds the number of iterations the
embedding will take, and every theorem below supplies enough of it.  Returns
the accumulated records together with the list of page numbers fetched, in
call order. -/
def searchLoop (search : Nat → SearchPage) : Nat → Nat → List Photo × List Nat
  | 0, _ => ([], [])
  | fuel + 1, page =>
    let response := search page
    if response.pages ≤ page then
      (response.photo, [page])
    else
      let r := searchLoop search fuel (page + 1)
      (response.photo ++ r.1, page :: r.2)

/-- `search_photos_by_user(flickr, user_id)`: run the pagination loop from
page 1.  The oracle `search` stands for `flickr.photos.search` with the
`user_id`, `extras` and `per_page` arguments fixed for the run. -/
def search_photos_by_user (search : Nat → SearchPage) (fuel : Nat) :
    List Photo × List Nat :=
  searchLoop search fuel 1

/-- One mutating or metadata call issued against the remote service. -/
inductive Call where
  | auth : Call
  | search : Nat → Call
  | getExif : String → Call
  | createAlbum : String → String → String → Call
  | addPhoto : String → String → Call
  deriving DecidableEq, Repr

/-- Recognizes a `flickr.photosets.create` call in a trace. -/
def Call.isCreate : Call → Bool
  | .createAlbum _ _ _ => true
  | _ => false

/-- Recognizes a `flickr.photosets.addPhoto` call in a trace. -/
def Call.isAdd : Call → Bool
  | .addPhoto _ _ => true
  | _ => false

/-- `add_photos_to_photoset(flickr, photoset_id, photo_ids)`: one
`flickr.photosets.addPhoto` call per id, in list order. -/
def add_photos_to_photoset (photoset_id : String) (photo_ids : List String) :
    List Call :=
  photo_ids.map (fun pid => Call.addPhoto photoset_id pid)

/-- The parsed command-line arguments the script consumes. -/
structure Args where
  api_key : String
  api_secret : String
  user_id : String
  camera_model : String
  photoset_id : Option String
  album_title : String
  album_desc : String
  deriving Repr

/-- The remote service as a pure oracle: the search pages, the per-photo
EXIF responses, and the id `flickr.photosets.create` will assign to a newly
created photoset. -/
structure Service where
  search : Nat → SearchPage
  getExif : String → Option (List ExifTag)
  createId : String

/-- `create_photoset(flickr, title, primary_photo_id, description)`: issues
one create call and returns the new photoset's id (taken from the service). -/
def create_photoset (srv : Service) (title primary_photo_id description : String) :
    String × List Call :=
  (srv.createId, [Call.createAlbum title primary_photo_id description])

/-- What a run of `main` produces: the process exit status, the trace of
remote calls in order, and the messages printed. -/
structure RunResult where
  exitCode : Nat
  calls : List Call
  messages : List String
  deriving Repr

/-- The message printed when the API key or secret is empty. -/
def credentialsErrorMsg : String :=
  "Error: You must specify an API key and secret. See the script header for instructions."

/-- The message printed when no photo matched the camera model. -/
def noPhotosMsg (camera_model : String) : String :=
  "No photos found for camera model \x27" ++ camera_model ++ "\x27. Exiting."

/-- `main(argv)` after argument parsing.  Mirrors the script's control flow:
empty key or secret prints an error and exits with status 1 before any
remote call; otherwise authenticate, enumerate, filter, then either report
no matches (exit 0), append all matches to the given photoset, or create a
photoset with the first match as primary and add the rest.  Python's
truthiness test `if args.photoset_id:` treats both an absent and an empty
photoset id as create mode. -/
def main (fuel : Nat) (args : Args) (srv : Service) : RunResult :=
  if args.api_key == "" || args.api_secret == "" then
    ⟨1, [], [credentialsErrorMsg]⟩
  else
    let sres := search_photos_by_user srv.search fuel
    let photos := sres.1
    let n := photos.length
    let fres := filter_photos_by_camera srv.getExif photos args.camera_model
    let exifIds := fres.2
    let preCalls : List Call :=
      Call.auth :: sres.2.map Call.search ++ exifIds.map Call.getExif
    let preMsgs : List String :=
      ["Searching for photos belonging to user " ++ args.user_id ++ "…",
       "Retrieved " ++ toString n ++ " photos. Filtering by camera model…"]
    match fres.1 with
    | [] =>
      ⟨0, preCalls, preMsgs ++ [noPhotosMsg args.camera_model]⟩
    | primary_id :: rest_ids =>
      let m := (primary_id :: rest_ids).length
      let foundMsg :=
        "Found " ++ toString m ++ " photo(s) taken with " ++ args.camera_model ++ "."
      if args.photoset_id.getD "" != "" then
        let photoset_id := args.photoset_id.getD ""
        ⟨0, preCalls ++ add_photos_to_photoset photoset_id (primary_id :: rest_ids),
         preMsgs ++ [foundMsg,
           "Adding photos to existing photoset " ++ photoset_id ++ "…", "Done."]⟩
      else
        let created := create_photoset srv args.album_title primary_id args.album_desc
        let photoset_id := created.1
        let addCalls :=
          if rest_ids.isEmpty then [] else add_photos_to_photoset photoset_id rest_ids
        ⟨0, preCalls ++ created.2 ++ addCalls,
         preMsgs ++ [foundMsg,
           "Creating new photoset \x27" ++ args.album_title ++ "\x27…",
           "Created photoset " ++ photoset_id ++ ". Adding remaining photos…",
           "All photos added."]⟩

/-- Spec-side reformulation of the EXIF fallback decision, used to compare
the code's behaviour with the spec's wording: find the first metadata entry
whose label or tag key equals `"Model"` case-insensitively, extract its
value, and accept iff that value is non-empty and equals the target model
case-insensitively. -/
def exifFallbackMatches (g : String → Option (List ExifTag)) (photo_id camera_model : String) :
    Bool :=
  match g photo_id with
  | none => false
  | some tags =>
    match tags.find? (fun t => lower t.label == "model" || lower t.tag == "model") with
    | none => false
    | some t =>
      match extractRaw t.raw with
      | none => false
      | some m => m != "" && lower m == lower camera_model

/-- Spec-side predicate for claim C2 as written: SOME returned metadata
entry has label or tag key `"Model"` case-insensitively and its value equals
the target model case-insensitively. -/
def specSomeModelEntryMatches (g : String → Option (List ExifTag))
    (photo_id camera_model : String) : Prop :=
  ∃ tags t m, g photo_id = some tags ∧ t ∈ tags ∧
    (lower t.label = "model" ∨ lower t.tag = "model") ∧
    extractRaw t.raw = some m ∧ lower m = lower camera_model

/-! ### Concrete inputs used to exercise the embedding -/

/-- An EXIF oracle whose first `Model` entry carries a value different from
the target while a later `Model` entry carries the target value. -/
def c2ExifOracle : String → Option (List ExifTag) := fun _ =>
  some [⟨"Model", "", some (.str "Other")⟩, ⟨"Model", "", some (.str "Canon")⟩]

/-- An EXIF oracle whose only `Model` entry carries the empty string. -/
def c2EmptyValueOracle : String → Option (List ExifTag) := fun _ =>
  some [⟨"Model", "", some (.str "")⟩]

/-- A two-page search response: 3 records on page 1, 2 records on page 2,
both pages reporting 2 total pages. -/
def twoPageSearch : Nat → SearchPage := fun page =>
  if page = 1 then
    ⟨[⟨"a", none⟩, ⟨"b", none⟩, ⟨"c", none⟩], 2⟩
  else
    ⟨[⟨"d", none⟩, ⟨"e", none⟩], 2⟩

/-- Arguments selecting create mode (no photoset id). -/
def createArgs : Args := ⟨"k", "s", "me", "x", none, "T", "D"⟩

/-- Arguments selecting append mode (an existing photoset id). -/
def appendArgs : Args := ⟨"k", "s", "me", "x", some "ps", "T", "D"⟩

/-- Arguments with an empty API key. -/
def emptyKeyArgs : Args := ⟨"", "s", "me", "x", none, "T", "D"⟩

/-- A service returning two photos whose machine tags match camera `"x"`. -/
def twoMatchService : Service :=
  ⟨fun _ => ⟨[⟨"A", some "x"⟩, ⟨"B", some "x"⟩], 1⟩, fun _ => none, "new"⟩

/-- A service returning the photo id `"A"` twice (three records, the first
and third sharing one id), all matching camera `"x"` by machine tag. -/
def dupIdService : Service :=
  ⟨fun _ => ⟨[⟨"A", some "x"⟩, ⟨"B", some "x"⟩, ⟨"A", some "x"⟩], 1⟩,
   fun _ => none, "new"⟩

/-- A service returning one photo with no machine tags and no EXIF data,
so nothing matches. -/
def noMatchService : Service :=
  ⟨fun _ => ⟨[⟨"A", none⟩], 1⟩, fun _ => none, "new"⟩

/-- A photo record whose machine tags match camera `"x"`. -/
def dupPhoto : Photo := ⟨"1", some "camera:model=x"⟩

/-! ### Helper lemmas -/

theorem hasSubstr_nil_needle (hay : List Char) : hasSubstr [] hay = true := by
  cases hay <;> rfl

theorem strContainsSub_empty_needle (hay : String) : strContainsSub hay "" = true :=
  hasSubstr_nil_needle hay.toList

theorem findModel_eq_none_of_noModel (tags : List ExifTag)
    (h : ∀ t ∈ tags, lower t.label ≠ "model" ∧ lower t.tag ≠ "model") :
    findModel tags = none := by
  induction tags with
  | nil => rfl
  | cons t rest ih =>
    have ht := h t (List.mem_cons_self t rest)
    simp only [findModel]
    rw [if_neg]
    · exact ih (fun u hu => h u (List.mem_cons_of_mem t hu))
    · simp [ht.1, ht.2]

theorem findModel_eq_find (tags : List ExifTag) :
    findModel tags =
      (tags.find? (fun t => lower t.label == "model" || lower t.tag == "model")).bind
        (fun t => extractRaw t.raw) := by
  induction tags with
  | nil => rfl
  | cons t rest ih =>
    simp only [findModel, List.find?]
    by_cases h : (lower t.label == "model" || lower t.tag == "model") = true
    · simp [h]
    · simp [h, ih]

theorem exifFallbackMatches_eq_code (g : String → Option (List ExifTag))
    (photo_id camera_model : String) :
    exifFallbackMatches g photo_id camera_model =
      (match get_camera_for_photo g photo_id with
       | some m => m != "" && lower m == lower camera_model
       | none => false) := by
  simp only [exifFallbackMatches, get_camera_for_photo]
  cases g photo_id with
  | none => rfl
  | some tags =>
    dsimp only
    rw [findModel_eq_find]
    cases tags.find? (fun t => lower t.label == "model" || lower t.tag == "model") with
    | none => rfl
    | some t =>
      cases h : extractRaw t.raw <;> simp [h]

theorem filter_cons_fastpath (g : String → Option (List ExifTag))
    (camera_model : String) (p : Photo) (rest : List Photo) (mt : String)
    (hmt : p.machine_tags = some mt) (hne : mt ≠ "")
    (hsub : strContainsSub (normalizeModel mt) (normalizeModel camera_model) = true) :
    filter_photos_by_camera g (p :: rest) camera_model =
      (p.id :: (filter_photos_by_camera g rest camera_model).1,
       (filter_photos_by_camera g rest camera_model).2) := by
  simp only [filter_photos_by_camera, hmt, Option.getD_some]
  rw [if_pos]
  simp [hne, hsub]

theorem filter_cons_fallback (g : String → Option (List ExifTag))
    (camera_model : String) (p : Photo) (rest : List Photo)
    (hfast : p.machine_tags.getD "" = "" ∨
      strContainsSub (normalizeModel (p.machine_tags.getD ""))
        (normalizeModel camera_model) = false) :
    filter_photos_by_camera g (p :: rest) camera_model =
      (if exifFallbackMatches g p.id camera_model then
        p.id :: (filter_photos_by_camera g rest camera_model).1
       else (filter_photos_by_camera g rest camera_model).1,
       p.id :: (filter_photos_by_camera g rest camera_model).2) := by
  simp only [filter_photos_by_camera]
  rw [if_neg]
  · rw [exifFallbackMatches_eq_code]
    cases hg : get_camera_for_photo g p.id with
    | none => simp
    | some m =>
      by_cases hm : (m != "" && lower m == lower camera_model) = true
      · simp [hm]
      · simp only [hm]
        rw [if_neg (by simp_all), if_neg (by simp_all)]
  · rcases hfast with h | h
    · simp [h]
    · simp [h]

theorem searchLoop_const_pages (search : Nat → SearchPage) (P : Nat)
    (h : ∀ p, (search p).pages = P) :
    ∀ fuel page, page + fuel = P + 1 →
    searchLoop search fuel page =
      (((List.range' page fuel).map (fun q => (search q).photo)).flatten,
       List.range' page fuel) := by
  intro fuel
  induction fuel with
  | zero =>
    intro page hp
    simp [searchLoop, List.range']
  | succ k ih =>
    intro page hp
    simp only [searchLoop, h]
    by_cases hle : P ≤ page
    · have hk : k = 0 := by omega
      subst hk
      rw [if_pos hle]
      simp [List.range']
    · rw [if_neg hle, ih (page + 1) (by omega)]
      simp [List.range']

theorem filter_photos_sublist (g : String → Option (List ExifTag))
    (photos : List Photo) (camera_model : String) :
    List.Sublist (filter_photos_by_camera g photos camera_model).1
      (photos.map Photo.id) := by
  induction photos with
  | nil => simp [filter_photos_by_camera]
  | cons p rest ih =>
    simp only [filter_photos_by_camera, List.map_cons]
    split
    · exact List.Sublist.cons₂ p.id ih
    · split
      · split
        · exact List.Sublist.cons₂ p.id ih
        · exact List.Sublist.cons p.id ih
      · exact List.Sublist.cons p.id ih

theorem filter_map_eq_nil {α : Type} (f : α → Call) (pred : Call → Bool)
    (hf : ∀ a, pred (f a) = false) (l : List α) :
    (l.map f).filter pred = [] := by
  induction l <;> simp_all

theorem filter_map_eq_self {α : Type} (f : α → Call) (pred : Call → Bool)
    (hf : ∀ a, pred (f a) = true) (l : List α) :
    (l.map f).filter pred = l.map f := by
  induction l <;> simp_all

theorem add_calls_ite (photoset_id : String) (l : List String) :
    (if l.isEmpty then [] else add_photos_to_photoset photoset_id l) =
      add_photos_to_photoset photoset_id l := by
  cases l <;> simp [add_photos_to_photoset]

theorem main_no_credentials (fuel : Nat) (args : Args) (srv : Service)
    (h : args.api_key = "" ∨ args.api_secret = "") :
    main fuel args srv = ⟨1, [], [credentialsErrorMsg]⟩ := by
  rcases h with h | h <;> simp [main, h]

theorem addPhoto_not_mem_map_search (ps pid : String) (l : List Nat) :
    Call.addPhoto ps pid ∉ l.map Call.search := by
  intro h
  obtain ⟨a, _, heq⟩ := List.mem_map.1 h
  exact Call.noConfusion heq

theorem addPhoto_not_mem_map_getExif (ps pid : String) (l : List String) :
    Call.addPhoto ps pid ∉ l.map Call.getExif := by
  intro h
  obtain ⟨a, _, heq⟩ := List.mem_map.1 h
  exact Call.noConfusion heq

theorem mem_of_mem_map_addPhoto {ps pid cid : String} {l : List String}
    (h : Call.addPhoto ps pid ∈ l.map (Call.addPhoto cid)) : pid ∈ l := by
  obtain ⟨a, ha, heq⟩ := List.mem_map.1 h
  injection heq with h1 h2
  subst h2
  exact ha

theorem main_empty_matches (fuel : Nat) (args : Args) (srv : Service)
    (exifIds : List String)
    (hkey : args.api_key ≠ "") (hsec : args.api_secret ≠ "")
    (hf : filter_photos_by_camera srv.getExif (search_photos_by_user srv.search fuel).1
        args.camera_model = ([], exifIds)) :
    (main fuel args srv).exitCode = 0
    ∧ (main fuel args srv).calls =
        Call.auth :: (search_photos_by_user srv.search fuel).2.map Call.search
          ++ exifIds.map Call.getExif
    ∧ noPhotosMsg args.camera_model ∈ (main fuel args srv).messages := by
  simp only [main]
  rw [if_neg (by simp [hkey, hsec])]
  rw [hf]
  simp

theorem main_create_mode (fuel : Nat) (args : Args) (srv : Service)
    (A : String) (rest exifIds : List String)
    (hkey : args.api_key ≠ "") (hsec : args.api_secret ≠ "")
    (hmode : args.photoset_id.getD "" = "")
    (hf : filter_photos_by_camera srv.getExif (search_photos_by_user srv.search fuel).1
        args.camera_model = (A :: rest, exifIds)) :
    (main fuel args srv).exitCode = 0
    ∧ (main fuel args srv).calls =
        Call.auth :: (search_photos_by_user srv.search fuel).2.map Call.search
          ++ exifIds.map Call.getExif
          ++ Call.createAlbum args.album_title A args.album_desc
            :: rest.map (Call.addPhoto srv.createId) := by
  simp only [main]
  rw [if_neg (by simp [hkey, hsec])]
  rw [hf]
  simp only [hmode]
  rw [if_neg (by simp)]
  rw [add_calls_ite]
  simp [create_photoset, add_photos_to_photoset]

theorem main_append_mode (fuel : Nat) (args : Args) (srv : Service)
    (pid : String) (ids exifIds : List String)
    (hkey : args.api_key ≠ "") (hsec : args.api_secret ≠ "")
    (hpid : args.photoset_id.getD "" = pid) (hpne : pid ≠ "")
    (hf : filter_photos_by_camera srv.getExif (search_photos_by_user srv.search fuel).1
        args.camera_model = (ids, exifIds)) :
    (main fuel args srv).exitCode = 0
    ∧ (main fuel args srv).calls =
        Call.auth :: (search_photos_by_user srv.search fuel).2.map Call.search
          ++ exifIds.map Call.getExif ++ ids.map (Call.addPhoto pid) := by
  simp only [main]
  rw [if_neg (by simp [hkey, hsec])]
  rw [hf]
  cases ids with
  | nil => simp
  | cons A rest =>
    simp only [hpid]
    rw [if_pos (by simp [hpne])]
    simp [add_photos_to_photoset]

/-! ### Claim theorems -/

/-- Claim C1: for every photo record carrying a non-empty machine-tag string,
if the target camera model normalized by removing spaces, hyphens and
underscores and lower-casing appears as a substring of the tag string
normalized the same way, the filter classifies the photo as a match without
issuing any per-item metadata lookup; in particular the tag strings
`exif:model=Canon-EOS-7D-Mark-II` and `EXIF:MODEL=canon eos 7d mark ii`
both match the target model `Canon EOS 7D Mark II`. -/
theorem c1_tag_fast_path (g : String → Option (List ExifTag))
    (camera_model : String) (p : Photo) (rest : List Photo) (mt : String)
    (hmt : p.machine_tags = some mt) (hne : mt ≠ "")
    (hsub : strContainsSub (normalizeModel mt) (normalizeModel camera_model) = true) :
    filter_photos_by_camera g (p :: rest) camera_model =
      (p.id :: (filter_photos_by_camera g rest camera_model).1,
       (filter_photos_by_camera g rest camera_model).2)
    ∧ strContainsSub (normalizeModel "exif:model=Canon-EOS-7D-Mark-II")
        (normalizeModel "Canon EOS 7D Mark II") = true
    ∧ strContainsSub (normalizeModel "EXIF:MODEL=canon eos 7d mark ii")
        (normalizeModel "Canon EOS 7D Mark II") = true :=
  ⟨filter_cons_fastpath g camera_model p rest mt hmt hne hsub, by decide, by decide⟩

/-- Witness for C1 at a concrete photo and camera model. -/
theorem c1_tag_fast_path_witness :
    filter_photos_by_camera (fun _ => none)
        [⟨"1", some "exif:model=Canon-EOS-7D-Mark-II"⟩] "Canon EOS 7D Mark II" =
      (["1"], []) := by
  have h := c1_tag_fast_path (fun _ => none) "Canon EOS 7D Mark II"
    ⟨"1", some "exif:model=Canon-EOS-7D-Mark-II"⟩ []
    "exif:model=Canon-EOS-7D-Mark-II" rfl (by decide) (by decide)
  simpa using h.1

/-- Counterexample to claim C2 as stated.  First input: the EXIF response
has two `Model` entries; the second entry's value equals the target exactly,
so the claim's "some entry" condition holds, yet the code inspects only the
FIRST `Model` entry and classifies the photo as no-match.  Second input: the
only `Model` entry's value is the empty string and the target is the empty
string, so the claim's condition holds, yet the code's truthiness test
rejects an empty model value and classifies the photo as no-match. -/
theorem c2_exif_exact_match_counterexample :
    specSomeModelEntryMatches c2ExifOracle "1" "Canon"
    ∧ (filter_photos_by_camera c2ExifOracle [⟨"1", none⟩] "Canon").1 = []
    ∧ specSomeModelEntryMatches c2EmptyValueOracle "1" ""
    ∧ (filter_photos_by_camera c2EmptyValueOracle [⟨"1", none⟩] "").1 = [] := by
  refine ⟨?_, by decide, ?_, by decide⟩
  · exact ⟨[⟨"Model", "", some (.str "Other")⟩, ⟨"Model", "", some (.str "Canon")⟩],
      ⟨"Model", "", some (.str "Canon")⟩, "Canon", rfl, by decide,
      Or.inl (by decide), rfl, by decide⟩
  · exact ⟨[⟨"Model", "", some (.str "")⟩], ⟨"Model", "", some (.str "")⟩, "",
      rfl, by decide, Or.inl (by decide), rfl, by decide⟩

/-- Claim C2, amended: for every photo record whose machine-tag string is
absent or does not contain the normalized target as a substring, the filter
issues exactly one per-photo metadata lookup and classifies the photo as a
match if and only if the FIRST returned metadata entry whose label or raw
tag key equals `"Model"` case-insensitively yields a non-empty value that
equals the target camera model under case-insensitive comparison. -/
theorem c2_exif_exact_match_amended (g : String → Option (List ExifTag))
    (camera_model : String) (p : Photo) (rest : List Photo)
    (hfast : p.machine_tags.getD "" = "" ∨
      strContainsSub (normalizeModel (p.machine_tags.getD ""))
        (normalizeModel camera_model) = false) :
    (filter_photos_by_camera g (p :: rest) camera_model).2 =
      p.id :: (filter_photos_by_camera g rest camera_model).2
    ∧ (filter_photos_by_camera g (p :: rest) camera_model).1 =
        (if exifFallbackMatches g p.id camera_model then
          p.id :: (filter_photos_by_camera g rest camera_model).1
         else (filter_photos_by_camera g rest camera_model).1) := by
  rw [filter_cons_fallback g camera_model p rest hfast]
  exact ⟨rfl, rfl⟩

/-- Witness for the amended C2 at a concrete photo, oracle and target. -/
theorem c2_exif_exact_match_witness :
    (filter_photos_by_camera c2ExifOracle [⟨"1", none⟩] "Canon").2 = ["1"]
    ∧ (filter_photos_by_camera c2ExifOracle [⟨"1", none⟩] "Canon").1 = [] := by
  have h := c2_exif_exact_match_amended c2ExifOracle "Canon" ⟨"1", none⟩ [] (Or.inl rfl)
  refine ⟨h.1, ?_⟩
  rw [h.2]
  decide

/-- Claim C7: a photo whose fast path does not fire and whose metadata
lookup either fails with a service error or returns no `Model` entry is
treated as a no-match, and the filter continues with the remaining photos;
no error propagates. -/
theorem c7_metadata_unavailable (g : String → Option (List ExifTag))
    (camera_model : String) (p : Photo) (rest : List Photo)
    (hfast : p.machine_tags.getD "" = "" ∨
      strContainsSub (normalizeModel (p.machine_tags.getD ""))
        (normalizeModel camera_model) = false)
    (hmeta : g p.id = none ∨ ∃ tags, g p.id = some tags ∧
      ∀ t ∈ tags, lower t.label ≠ "model" ∧ lower t.tag ≠ "model") :
    get_camera_for_photo g p.id = none
    ∧ filter_photos_by_camera g (p :: rest) camera_model =
        ((filter_photos_by_camera g rest camera_model).1,
         p.id :: (filter_photos_by_camera g rest camera_model).2) := by
  have hnone : get_camera_for_photo g p.id = none := by
    rcases hmeta with h | ⟨tags, hg, hno⟩
    · simp [get_camera_for_photo, h]
    · simp [get_camera_for_photo, hg, findModel_eq_none_of_noModel tags hno]
  have hfb : exifFallbackMatches g p.id camera_model = false := by
    rw [exifFallbackMatches_eq_code, hnone]
  refine ⟨hnone, ?_⟩
  rw [filter_cons_fallback g camera_model p rest hfast, hfb]
  simp

/-- Witness for C7 at a concrete photo whose EXIF lookup fails. -/
theorem c7_metadata_unavailable_witness :
    get_camera_for_photo (fun _ => none) "1" = none
    ∧ filter_photos_by_camera (fun _ => none) [⟨"1", none⟩] "x" = ([], ["1"]) := by
  have h := c7_metadata_unavailable (fun _ => none) "x" ⟨"1", none⟩ []
    (Or.inl rfl) (Or.inl rfl)
  exact ⟨h.1, by simpa using h.2⟩

/-- Claim C10: if the target camera model normalizes to the empty string,
every photo carrying a non-empty machine-tag string matches on the fast
path, with no metadata lookup issued. -/
theorem c10_empty_target_fast_path (g : String → Option (List ExifTag))
    (camera_model : String) (p : Photo) (rest : List Photo) (mt : String)
    (hcm : normalizeModel camera_model = "")
    (hmt : p.machine_tags = some mt) (hne : mt ≠ "") :
    filter_photos_by_camera g (p :: rest) camera_model =
      (p.id :: (filter_photos_by_camera g rest camera_model).1,
       (filter_photos_by_camera g rest camera_model).2) :=
  filter_cons_fastpath g camera_model p rest mt hmt hne
    (by rw [hcm]; exact strContainsSub_empty_needle _)

/-- Witness for C10: the target `" -_"` normalizes to the empty string and
matches an arbitrary non-empty machine-tag string on the fast path. -/
theorem c10_empty_target_fast_path_witness :
    filter_photos_by_camera (fun _ => none) [⟨"1", some "t"⟩] " -_" =
      (["1"], []) := by
  have h := c10_empty_target_fast_path (fun _ => none) " -_" ⟨"1", some "t"⟩ []
    "t" (by decide) rfl (by decide)
  simpa using h

/-- Claim C3: when every search response reports the same total page count
`P ≥ 1`, the enumerator returns the concatenation of pages `1..P` in page
order and fetches exactly pages `1..P`, i.e. performs exactly `P` search
calls, halting at the last page. -/
theorem c3_pagination (search : Nat → SearchPage) (P : Nat) (hP : 1 ≤ P)
    (h : ∀ p, (search p).pages = P) :
    search_photos_by_user search P =
      (((List.range' 1 P).map (fun q => (search q).photo)).flatten,
       List.range' 1 P)
    ∧ (search_photos_by_user search P).2.length = P := by
  have hmain := searchLoop_const_pages search P h P 1 (by omega)
  refine ⟨hmain, ?_⟩
  rw [show search_photos_by_user search P = _ from hmain]
  simp

/-- Witness for C3: a 2-page response with 3 and 2 records yields 5 records
in 2 calls, fetched as pages 1 and 2. -/
theorem c3_pagination_witness :
    (search_photos_by_user twoPageSearch 2).1.length = 5
    ∧ (search_photos_by_user twoPageSearch 2).2 = [1, 2] := by
  have h := c3_pagination twoPageSearch 2 (by decide)
    (fun p => by simp only [twoPageSearch]; split <;> rfl)
  constructor
  · rw [h.1]; decide
  · rw [h.1]; rfl

/-- Counterexample to claim C4 as stated: when the matcher's output repeats
an identifier (here the search returns the id `"A"` twice among the
matches), create mode designates the FIRST occurrence of `"A"` as primary
but still passes the later occurrence of `"A"` to an add-item call, so
"the first identifier is never passed to an add-item call" fails. -/
theorem c4_create_mode_counterexample :
    (filter_photos_by_camera dupIdService.getExif
        (search_photos_by_user dupIdService.search 1).1 createArgs.camera_model).1 =
      ["A", "B", "A"]
    ∧ Call.addPhoto "new" "A" ∈ (main 1 createArgs dupIdService).calls := by
  decide

/-- Claim C4, amended: in create mode, for every non-empty matched
identifier list `A :: rest`, exactly one create-album call is issued, with
`A` as the primary photo, then each identifier of `rest` is passed to a
separate add-item call in input order; provided `A` does not recur in
`rest` (e.g. the matched identifiers are pairwise distinct), `A` is never
passed to an add-item call. -/
theorem c4_create_mode_amended (fuel : Nat) (args : Args) (srv : Service)
    (A : String) (rest exifIds : List String)
    (hkey : args.api_key ≠ "") (hsec : args.api_secret ≠ "")
    (hmode : args.photoset_id.getD "" = "")
    (hf : filter_photos_by_camera srv.getExif (search_photos_by_user srv.search fuel).1
        args.camera_model = (A :: rest, exifIds))
    (hA : A ∉ rest) :
    (main fuel args srv).calls =
      Call.auth :: (search_photos_by_user srv.search fuel).2.map Call.search
        ++ exifIds.map Call.getExif
        ++ Call.createAlbum args.album_title A args.album_desc
          :: rest.map (Call.addPhoto srv.createId)
    ∧ ((main fuel args srv).calls.filter Call.isCreate) =
        [Call.createAlbum args.album_title A args.album_desc]
    ∧ ∀ ps pid, Call.addPhoto ps pid ∈ (main fuel args srv).calls → pid ≠ A := by
  obtain ⟨hexit, hcalls⟩ :=
    main_create_mode fuel args srv A rest exifIds hkey hsec hmode hf
  have h1 : (((search_photos_by_user srv.search fuel).2.map Call.search).filter
      Call.isCreate) = [] := filter_map_eq_nil _ _ (fun _ => rfl) _
  have h2 : ((exifIds.map Call.getExif).filter Call.isCreate) = [] :=
    filter_map_eq_nil _ _ (fun _ => rfl) _
  have h3 : ((rest.map (Call.addPhoto srv.createId)).filter Call.isCreate) = [] :=
    filter_map_eq_nil _ _ (fun _ => rfl) _
  refine ⟨hcalls, ?_, ?_⟩
  · rw [hcalls]
    simp [List.filter_append, List.filter_cons, h1, h2, h3, Call.isCreate]
  · intro ps pid hmem
    rw [hcalls] at hmem
    have hpr : pid ∈ rest := by
      rcases List.mem_cons.1 hmem with heq | hmem
      · exact Call.noConfusion heq
      rcases List.mem_append.1 hmem with hmem | hmem
      · rcases List.mem_append.1 hmem with hmem | hmem
        · exact absurd hmem (addPhoto_not_mem_map_search ps pid _)
        · exact absurd hmem (addPhoto_not_mem_map_getExif ps pid _)
      · rcases List.mem_cons.1 hmem with heq | hmem
        · exact Call.noConfusion heq
        · exact mem_of_mem_map_addPhoto hmem
    exact fun hpidA => hA (hpidA ▸ hpr)

/-- Witness for the amended C4 at a concrete create-mode run with two
matched photos. -/
theorem c4_create_mode_witness :
    (main 1 createArgs twoMatchService).calls =
      [Call.auth, Call.search 1, Call.createAlbum "T" "A" "D",
       Call.addPhoto "new" "B"]
    ∧ Call.addPhoto "new" "A" ∉ (main 1 createArgs twoMatchService).calls := by
  have h := c4_create_mode_amended 1 createArgs twoMatchService "A" ["B"] []
    (by decide) (by decide) rfl (by decide) (by decide)
  exact ⟨h.1.trans (by decide), fun hmem => h.2.2 "new" "A" hmem rfl⟩

/-- Claim C5: in append mode, for every matched identifier list, the run
issues exactly one add-item call per matched identifier, in input order,
against the supplied photoset id, with no identifier excluded as primary
and no create-album call issued. -/
theorem c5_append_mode (fuel : Nat) (args : Args) (srv : Service)
    (pid : String) (ids exifIds : List String)
    (hkey : args.api_key ≠ "") (hsec : args.api_secret ≠ "")
    (hpid : args.photoset_id.getD "" = pid) (hpne : pid ≠ "")
    (hf : filter_photos_by_camera srv.getExif (search_photos_by_user srv.search fuel).1
        args.camera_model = (ids, exifIds)) :
    (main fuel args srv).calls =
      Call.auth :: (search_photos_by_user srv.search fuel).2.map Call.search
        ++ exifIds.map Call.getExif ++ ids.map (Call.addPhoto pid)
    ∧ ((main fuel args srv).calls.filter Call.isAdd) = ids.map (Call.addPhoto pid)
    ∧ ((main fuel args srv).calls.filter Call.isCreate) = [] := by
  obtain ⟨hexit, hcalls⟩ :=
    main_append_mode fuel args srv pid ids exifIds hkey hsec hpid hpne hf
  have h1 : (((search_photos_by_user srv.search fuel).2.map Call.search).filter
      Call.isAdd) = [] := filter_map_eq_nil _ _ (fun _ => rfl) _
  have h2 : ((exifIds.map Call.getExif).filter Call.isAdd) = [] :=
    filter_map_eq_nil _ _ (fun _ => rfl) _
  have h3 : ((ids.map (Call.addPhoto pid)).filter Call.isAdd) =
      ids.map (Call.addPhoto pid) := filter_map_eq_self _ _ (fun _ => rfl) _
  have h4 : (((search_photos_by_user srv.search fuel).2.map Call.search).filter
      Call.isCreate) = [] := filter_map_eq_nil _ _ (fun _ => rfl) _
  have h5 : ((exifIds.map Call.getExif).filter Call.isCreate) = [] :=
    filter_map_eq_nil _ _ (fun _ => rfl) _
  have h6 : ((ids.map (Call.addPhoto pid)).filter Call.isCreate) = [] :=
    filter_map_eq_nil _ _ (fun _ => rfl) _
  refine ⟨hcalls, ?_, ?_⟩
  · rw [hcalls]
    simp [List.filter_append, List.filter_cons, h1, h2, h3, Call.isAdd]
  · rw [hcalls]
    simp [List.filter_append, List.filter_cons, h4, h5, h6, Call.isCreate]

/-- Witness for C5 at a concrete append-mode run with two matched photos. -/
theorem c5_append_mode_witness :
    (main 1 appendArgs twoMatchService).calls =
      [Call.auth, Call.search 1, Call.addPhoto "ps" "A", Call.addPhoto "ps" "B"]
    ∧ ((main 1 appendArgs twoMatchService).calls.filter Call.isCreate) = [] := by
  have h := c5_append_mode 1 appendArgs twoMatchService "ps" ["A", "B"] []
    (by decide) (by decide) rfl (by decide) (by decide)
  exact ⟨h.1.trans (by decide), h.2.2⟩

/-- Claim C6: when the matcher returns no identifiers, no create-album and
no add-item call is ever issued, a "no photos found" message is printed
and the process terminates with exit status zero. -/
theorem c6_empty_match_set (fuel : Nat) (args : Args) (srv : Service)
    (exifIds : List String)
    (hkey : args.api_key ≠ "") (hsec : args.api_secret ≠ "")
    (hf : filter_photos_by_camera srv.getExif (search_photos_by_user srv.search fuel).1
        args.camera_model = ([], exifIds)) :
    (main fuel args srv).exitCode = 0
    ∧ noPhotosMsg args.camera_model ∈ (main fuel args srv).messages
    ∧ ((main fuel args srv).calls.filter
        (fun c => c.isCreate || c.isAdd)) = [] := by
  obtain ⟨hexit, hcalls, hmsg⟩ :=
    main_empty_matches fuel args srv exifIds hkey hsec hf
  have h1 : (((search_photos_by_user srv.search fuel).2.map Call.search).filter
      (fun c => c.isCreate || c.isAdd)) = [] := filter_map_eq_nil _ _ (fun _ => rfl) _
  have h2 : ((exifIds.map Call.getExif).filter
      (fun c => c.isCreate || c.isAdd)) = [] := filter_map_eq_nil _ _ (fun _ => rfl) _
  refine ⟨hexit, hmsg, ?_⟩
  rw [hcalls]
  simp [List.filter_append, List.filter_cons, h1, h2, Call.isCreate, Call.isAdd]

/-- Witness for C6 at a concrete run in which nothing matches. -/
theorem c6_empty_match_set_witness :
    (main 1 createArgs noMatchService).exitCode = 0
    ∧ noPhotosMsg "x" ∈ (main 1 createArgs noMatchService).messages
    ∧ ((main 1 createArgs noMatchService).calls.filter
        (fun c => c.isCreate || c.isAdd)) = [] := by
  have h := c6_empty_match_set 1 createArgs noMatchService ["A"]
    (by decide) (by decide) (by decide)
  exact h

/-- Counterexample to claim C8 as stated: two input records sharing one
identifier both match by machine tag, so the matcher's output contains the
identifier twice — the output is not duplicate-free for every input list. -/
theorem c8_output_order_counterexample :
    (filter_photos_by_camera (fun _ => none) [dupPhoto, dupPhoto] "x").1 = ["1", "1"]
    ∧ ¬ (filter_photos_by_camera (fun _ => none) [dupPhoto, dupPhoto] "x").1.Nodup := by
  decide

/-- Claim C8, amended: for every input list of photo records, the matcher's
output is a sublist of the input identifiers — the matching identifiers in
original enumeration order — and it contains no duplicates provided the
input records carry pairwise distinct identifiers. -/
theorem c8_output_order_amended (g : String → Option (List ExifTag))
    (photos : List Photo) (camera_model : String) :
    List.Sublist (filter_photos_by_camera g photos camera_model).1
      (photos.map Photo.id)
    ∧ ((photos.map Photo.id).Nodup →
        (filter_photos_by_camera g photos camera_model).1.Nodup) :=
  ⟨filter_photos_sublist g photos camera_model,
   fun hnd => List.Nodup.sublist (filter_photos_sublist g photos camera_model) hnd⟩

/-- Witness for the amended C8 at a concrete input list. -/
theorem c8_output_order_witness :
    List.Sublist (filter_photos_by_camera (fun _ => none) [dupPhoto] "x").1
      ([dupPhoto].map Photo.id)
    ∧ (filter_photos_by_camera (fun _ => none) [dupPhoto] "x").1.Nodup := by
  have h := c8_output_order_amended (fun _ => none) [dupPhoto] "x"
  exact ⟨h.1, h.2 (by decide)⟩

/-- Claim C9: when the API key or secret is empty, the run reports a
user-facing error, exits with non-zero status, and issues no remote call
at all. -/
theorem c9_missing_credentials (fuel : Nat) (args : Args) (srv : Service)
    (h : args.api_key = "" ∨ args.api_secret = "") :
    (main fuel args srv).exitCode ≠ 0
    ∧ (main fuel args srv).calls = []
    ∧ credentialsErrorMsg ∈ (main fuel args srv).messages := by
  rw [main_no_credentials fuel args srv h]
  exact ⟨by decide, rfl, by simp⟩

/-- Witness for C9 at a concrete run with an empty API key. -/
theorem c9_missing_credentials_witness :
    (main 1 emptyKeyArgs noMatchService).exitCode ≠ 0
    ∧ (main 1 emptyKeyArgs noMatchService).calls = []
    ∧ credentialsErrorMsg ∈ (main 1 emptyKeyArgs noMatchService).messages :=
  c9_missing_credentials 1 emptyKeyArgs noMatchService (Or.inl rfl)

end Flickr
